import Mathlib

/- Formal model of the VectorWave runtime.

   The semantic cache decision engine is translated from
   src/vectorwave/utils/return_caching_utils.py
   (function _check_and_return_cached_result).  Its collaborators
   (vectorizer, similarity search, batch manager, trace context variables)
   are modelled as an explicit environment recording each collaborator's
   outcome for the call under scrutiny, since those collaborators live
   outside the analysed module.  The replayer and the recommendation
   classifier are modelled from the specification, as their modules are not
   part of the analysed sources; the replayer tests pin their concrete
   behaviour.  -/

namespace VectorWave

/-- Canonical JSON-style value: the portable text form used for stored
return values covers numbers and strings in this model. -/
inductive JValue where
  | jnum : Nat → JValue
  | jstr : String → JValue
deriving DecidableEq

/-- Digit character to numeric value, `none` for non-digits. -/
def charDigit (c : Char) : Option Nat :=
  if '0' ≤ c ∧ c ≤ '9' then some (c.toNat - 48) else none

/-- Accumulating decimal parser over a character list. -/
def parseNatFrom (acc : Nat) : List Char → Option Nat
  | [] => some acc
  | c :: cs =>
    match charDigit c with
    | some d => parseNatFrom (acc * 10 + d) cs
    | none => none

/-- Parse a non-empty all-digit character list as a natural number. -/
def parseNatChars (cs : List Char) : Option Nat :=
  match cs with
  | [] => none
  | _ :: _ => parseNatFrom 0 cs

/-- Decimal digit characters of a natural number, most significant first. -/
def natToChars (n : Nat) : List Char :=
  if n = 0 then ['0'] else ((Nat.digits 10 n).map Nat.digitChar).reverse

/-- Decimal string of a natural number. -/
def natToStr (n : Nat) : String := String.mk (natToChars n)

/-- Decode the canonical text form: a double-quoted string literal decodes
to a string value, a digit run decodes to a number, anything else is
malformed. -/
def decodeChars : List Char → Option JValue
  | [] => none
  | c :: cs =>
    if c = '"' then
      match cs.getLast? with
      | some d => if d = '"' then some (JValue.jstr (String.mk cs.dropLast)) else none
      | none => none
    else (parseNatChars (c :: cs)).map JValue.jnum

/-- Decode a stored string in canonical text form. -/
def decodeJson (s : String) : Option JValue := decodeChars s.data

/-- Canonical serialization of a value (JSON style: numbers bare, strings
double quoted). -/
def serializeJ : JValue → String
  | .jnum n => natToStr n
  | .jstr s => String.mk ('"' :: (s.data ++ ['"']))

theorem string_mk_data (s : String) : String.mk s.data = s := by
  cases s
  rfl

theorem charDigit_digitChar {d : Nat} (h : d < 10) :
    charDigit (Nat.digitChar d) = some d := by
  interval_cases d <;> decide

theorem digitChar_ne_quote {d : Nat} (h : d < 10) : Nat.digitChar d ≠ '"' := by
  interval_cases d <;> decide

theorem parseNatFrom_map_digitChar (ds : List Nat) (h : ∀ d ∈ ds, d < 10) (acc : Nat) :
    parseNatFrom acc (ds.map Nat.digitChar) =
      some (ds.foldl (fun a d => a * 10 + d) acc) := by
  induction ds generalizing acc with
  | nil => rfl
  | cons d dt ih =>
    have hd : charDigit (Nat.digitChar d) = some d :=
      charDigit_digitChar (h d (List.mem_cons_self d dt))
    simp only [List.map_cons, parseNatFrom, hd, List.foldl_cons]
    exact ih (fun x hx => h x (List.mem_cons_of_mem d hx)) (acc * 10 + d)

theorem foldr_eq_ofDigits (L : List Nat) :
    L.foldr (fun d a => a * 10 + d) 0 = Nat.ofDigits 10 L := by
  induction L with
  | nil => simp [Nat.ofDigits_nil]
  | cons d L ih =>
    simp only [List.foldr_cons, Nat.ofDigits_cons, ih]
    ring

theorem parseNatChars_natToChars (n : Nat) : parseNatChars (natToChars n) = some n := by
  by_cases h0 : n = 0
  · subst h0
    decide
  · have hne : Nat.digits 10 n ≠ [] := Nat.digits_ne_nil_iff_ne_zero.mpr h0
    have hrev : natToChars n = ((Nat.digits 10 n).reverse).map Nat.digitChar := by
      simp [natToChars, h0, List.map_reverse]
    have hrevne : ((Nat.digits 10 n).reverse).map Nat.digitChar ≠ [] := by
      simp [hne]
    obtain ⟨c, cs, hcons⟩ := List.exists_cons_of_ne_nil hrevne
    have hlt : ∀ d ∈ (Nat.digits 10 n).reverse, d < 10 := by
      intro d hd
      exact Nat.digits_lt_base (by norm_num) (List.mem_reverse.mp hd)
    have hparse : parseNatFrom 0 (((Nat.digits 10 n).reverse).map Nat.digitChar) =
        some (((Nat.digits 10 n).reverse).foldl (fun a d => a * 10 + d) 0) :=
      parseNatFrom_map_digitChar _ hlt 0
    have hfold : ((Nat.digits 10 n).reverse).foldl (fun a d => a * 10 + d) 0 = n := by
      rw [List.foldl_reverse]
      calc (Nat.digits 10 n).foldr (fun x y => y * 10 + x) 0
          = (Nat.digits 10 n).foldr (fun d a => a * 10 + d) 0 := rfl
        _ = Nat.ofDigits 10 (Nat.digits 10 n) := foldr_eq_ofDigits _
        _ = n := Nat.ofDigits_digits 10 n
    rw [hrev, hcons]
    show parseNatFrom 0 (c :: cs) = some n
    rw [← hcons, hparse, hfold]

theorem decodeChars_natToChars (n : Nat) :
    decodeChars (natToChars n) = some (JValue.jnum n) := by
  by_cases h0 : n = 0
  · subst h0
    decide
  · have hne : Nat.digits 10 n ≠ [] := Nat.digits_ne_nil_iff_ne_zero.mpr h0
    have hrev : natToChars n = ((Nat.digits 10 n).reverse).map Nat.digitChar := by
      simp [natToChars, h0, List.map_reverse]
    have hrevne : ((Nat.digits 10 n).reverse).map Nat.digitChar ≠ [] := by
      simp [hne]
    obtain ⟨c, cs, hcons⟩ := List.exists_cons_of_ne_nil hrevne
    have hcmem : c ∈ ((Nat.digits 10 n).reverse).map Nat.digitChar := by
      rw [hcons]; exact List.mem_cons_self c cs
    obtain ⟨d, hdmem, hdc⟩ := List.mem_map.mp hcmem
    have hdlt : d < 10 := Nat.digits_lt_base (by norm_num) (List.mem_reverse.mp hdmem)
    have hcq : c ≠ '"' := by
      rw [← hdc]
      exact digitChar_ne_quote hdlt
    have hp : parseNatChars (natToChars n) = some n := parseNatChars_natToChars n
    rw [hrev, hcons] at hp ⊢
    simp only [decodeChars, if_neg hcq, hp, Option.map_some']

theorem decodeJson_serializeJ (v : JValue) : decodeJson (serializeJ v) = some v := by
  cases v with
  | jnum n =>
    show decodeChars (natToChars n) = some (JValue.jnum n)
    exact decodeChars_natToChars n
  | jstr s =>
    show decodeChars ('"' :: (s.data ++ ['"'])) = some (JValue.jstr s)
    simp [decodeChars, List.getLast?_concat, List.dropLast_concat, string_mk_data]

/-- Value stored under a key of a Python-style property dictionary. -/
inductive PropVal where
  | pstr : String → PropVal
  | pnum : ℚ → PropVal
  | pnone : PropVal
deriving DecidableEq

/-- Python dictionary assignment `d[k] = v`: replace the binding of `k` if
present, otherwise append a new binding. -/
def pyDictSet : List (String × PropVal) → String → PropVal → List (String × PropVal)
  | [], k, v => [(k, v)]
  | p :: ps, k, v => if p.1 = k then (k, v) :: ps else p :: pyDictSet ps k v

/-- Python dictionary lookup `d.get(k)`. -/
def pyDictGet (d : List (String × PropVal)) (k : String) : Option PropVal :=
  (d.find? (fun p => p.1 == k)).map (fun p => p.2)

/-- Python `d.update(e)`: assign every binding of `e` into `d`, in order. -/
def pyUpdate (d e : List (String × PropVal)) : List (String × PropVal) :=
  e.foldl (fun acc p => pyDictSet acc p.1 p.2) d

/-- The per-call tag loop of `_check_and_return_cached_result`: for every
configured key present in the call's keyword arguments, assign the
argument value into the property dictionary. -/
def injectCustomTags (d : List (String × PropVal)) (custom : List String)
    (kwargs : List (String × PropVal)) : List (String × PropVal) :=
  custom.foldl (fun acc k =>
    match pyDictGet kwargs k with
    | some v => pyDictSet acc k v
    | none => acc) d

theorem pyDictGet_pyDictSet_self (d : List (String × PropVal)) (k : String) (v : PropVal) :
    pyDictGet (pyDictSet d k v) k = some v := by
  induction d with
  | nil => simp [pyDictSet, pyDictGet]
  | cons p ps ih =>
    by_cases h : p.1 = k
    · simp [pyDictSet, h, pyDictGet]
    · simp only [pyDictSet, if_neg h, pyDictGet, List.find?_cons]
      have hb : (p.1 == k) = false := beq_false_of_ne h
      rw [hb]
      exact ih

theorem pyDictGet_pyDictSet_ne (d : List (String × PropVal)) {k' k : String} (v : PropVal)
    (h : k' ≠ k) : pyDictGet (pyDictSet d k' v) k = pyDictGet d k := by
  induction d with
  | nil => simp [pyDictSet, pyDictGet, beq_false_of_ne h]
  | cons p ps ih =>
    by_cases hp : p.1 = k'
    · simp only [pyDictSet, if_pos hp, pyDictGet, List.find?_cons, beq_false_of_ne h]
      rw [show (p.1 == k) = false from beq_false_of_ne (hp ▸ h)]
    · simp only [pyDictSet, if_neg hp, pyDictGet, List.find?_cons]
      cases hc : (p.1 == k) with
      | true => rfl
      | false => exact ih

theorem pyUpdate_get_not_mem (e : List (String × PropVal)) (d : List (String × PropVal))
    {k : String} (h : ∀ p ∈ e, p.1 ≠ k) :
    pyDictGet (pyUpdate d e) k = pyDictGet d k := by
  induction e generalizing d with
  | nil => rfl
  | cons p ps ih =>
    show pyDictGet (pyUpdate (pyDictSet d p.1 p.2) ps) k = pyDictGet d k
    rw [ih (pyDictSet d p.1 p.2) (fun q hq => h q (List.mem_cons_of_mem p hq))]
    exact pyDictGet_pyDictSet_ne d p.2 (h p (List.mem_cons_self p ps))

theorem pyUpdate_get_mem (e : List (String × PropVal)) (d : List (String × PropVal))
    {k : String} {v : PropVal} (hnd : (e.map Prod.fst).Nodup) (hmem : (k, v) ∈ e) :
    pyDictGet (pyUpdate d e) k = some v := by
  induction e generalizing d with
  | nil => cases hmem
  | cons p ps ih =>
    have hnd' : (ps.map Prod.fst).Nodup := (List.nodup_cons.mp hnd).2
    rcases List.mem_cons.mp hmem with heq | hmem'
    · subst heq
      show pyDictGet (pyUpdate (pyDictSet d k v) ps) k = some v
      have hni : ∀ q ∈ ps, q.1 ≠ k := by
        intro q hq hqk
        have hqm : q.1 ∈ ps.map Prod.fst := List.mem_map_of_mem Prod.fst hq
        rw [hqk] at hqm
        exact (List.nodup_cons.mp hnd).1 hqm
      rw [pyUpdate_get_not_mem ps _ hni]
      exact pyDictGet_pyDictSet_self d k v
    · show pyDictGet (pyUpdate (pyDictSet d p.1 p.2) ps) k = some v
      exact ih (pyDictSet d p.1 p.2) hnd' hmem'

theorem injectCustomTags_get_not_mem (custom : List String)
    (d : List (String × PropVal)) (kwargs : List (String × PropVal)) {k : String}
    (h : k ∉ custom) :
    pyDictGet (injectCustomTags d custom kwargs) k = pyDictGet d k := by
  induction custom generalizing d with
  | nil => rfl
  | cons c cs ih =>
    have hck : c ≠ k := fun hc => h (hc ▸ List.mem_cons_self c cs)
    have hcs : k ∉ cs := fun hc => h (List.mem_cons_of_mem c hc)
    show pyDictGet (injectCustomTags _ cs kwargs) k = pyDictGet d k
    cases hkw : pyDictGet kwargs c with
    | none =>
      simp only [hkw]
      exact ih d hcs
    | some v =>
      simp only [hkw]
      rw [ih (pyDictSet d c v) hcs]
      exact pyDictGet_pyDictSet_ne d v hck

theorem injectCustomTags_get_mem (custom : List String)
    (d : List (String × PropVal)) (kwargs : List (String × PropVal)) {k : String}
    {v : PropVal} (hmem : k ∈ custom) (hkw : pyDictGet kwargs k = some v) :
    pyDictGet (injectCustomTags d custom kwargs) k = some v := by
  induction custom generalizing d with
  | nil => cases hmem
  | cons c cs ih =>
    have hstep : injectCustomTags d (c :: cs) kwargs =
        injectCustomTags (match pyDictGet kwargs c with
          | some w => pyDictSet d c w
          | none => d) cs kwargs := rfl
    rw [hstep]
    by_cases hin : k ∈ cs
    · exact ih _ hin
    · have hck : c = k := by
        rcases List.mem_cons.mp hmem with h | h
        · exact h.symm
        · exact absurd h hin
      subst hck
      rw [hkw]
      rw [injectCustomTags_get_not_mem cs _ kwargs hin]
      exact pyDictGet_pyDictSet_self d _ v

/-- A record found by the similarity search, as consumed by
`_check_and_return_cached_result`: the matched record's storage id, its
distance to the query vector (the search collaborator contract always
reports a distance), and the stored `return_value` text. -/
structure CachedLog where
  uuid : String
  distance : ℚ
  return_value : String
deriving DecidableEq

/-- Environment of one call to `_check_and_return_cached_result`: the
configuration read from the settings object and the outcome of each
collaborator operation for this call (an `Except` value records whether
the operation returns normally or raises). -/
structure CacheEnv where
  /-- `cache_threshold` argument; `none` models Python `None`. -/
  cache_threshold : Option ℚ
  /-- whether `get_vectorizer()` returns a vectorizer (vs `None`). -/
  vectorizer_present : Bool
  /-- outcome of `_create_input_vector_data` (canonical input text). -/
  buildText : Except Unit String
  /-- outcome of `vectorizer.embed` on the canonical text. -/
  embed : Except Unit (List ℚ)
  /-- outcome of `search_similar_execution`. -/
  search : Except Unit (Option CachedLog)
  /-- outcome of `get_batch_manager()`. -/
  getBatchManager : Except Unit Unit
  /-- outcome of `batch_manager.add_object`. -/
  addObject : Except Unit Unit
  /-- ambient tracer: `current_tracer_var.get()`, carrying its trace id. -/
  tracer : Option String
  /-- ambient span id: `current_span_id_var.get()`. -/
  ambient_span : Option String
  /-- the fresh id `uuid4()` would produce for a root-level trace id. -/
  fresh_trace_id : String
  /-- the fresh id `uuid4()` would produce for the record's span id. -/
  fresh_span_id : String
  /-- `datetime.now(timezone.utc).isoformat()` for this call. -/
  now_iso : String
  /-- `func.__module__` of the wrapped function. -/
  func_module : String
  /-- `generate_uuid5` of the weaviate library (external collaborator). -/
  uuid5 : String → String
  /-- `settings.global_custom_values`. -/
  global_custom_values : List (String × PropVal)
  /-- `settings.custom_properties` (per-call tag allow-list). -/
  custom_properties : List String
  /-- the call's keyword arguments. -/
  kwargs : List (String × PropVal)
  /-- `settings.EXECUTION_COLLECTION_NAME`. -/
  collection_name : String

/-- One `batch_manager.add_object(collection=..., properties=..., vector=...)`
invocation. -/
structure AddedObject where
  collection : String
  properties : List (String × PropVal)
  vector : List ℚ
deriving DecidableEq

/-- Instrumentation counters for one cache decision: how many times the
embedding collaborator and the search were invoked, how many times
`add_object` was invoked, and the objects handed to it. -/
structure CacheStats where
  embedCalls : Nat
  searchCalls : Nat
  addObjectCalls : Nat
  added : List AddedObject
deriving DecidableEq

/-- Modelled from the spec: `_deserialize_return_value`
(vectorwave/monitoring/tracer.py, not among the analysed sources)
deserializes the canonical text form of a stored `return_value`; a
malformed stored payload makes it raise (`MalformedStoredRecord` in the
error taxonomy). -/
def deserializeReturnValue (s : String) : Except Unit JValue :=
  match decodeJson s with
  | some v => Except.ok v
  | none => Except.error ()

/-- Python truthiness test `not cache_threshold`: true exactly for `None`
and for zero. -/
def thresholdDisabled : Option ℚ → Bool
  | none => true
  | some t => decide (t = 0)

/-- The base `hit_properties` dictionary literal built on a cache hit,
before tags are merged in: trace context, identifiers, timestamp, zero
duration, `CACHE_HIT` status and the verbatim stored return value. -/
def baseHitProperties (env : CacheEnv) (function_name : String)
    (log : CachedLog) : List (String × PropVal) :=
  [("trace_id", PropVal.pstr (env.tracer.getD env.fresh_trace_id)),
   ("span_id", PropVal.pstr env.fresh_span_id),
   ("parent_span_id", match env.ambient_span with
     | some s => PropVal.pstr s
     | none => PropVal.pnone),
   ("function_name", PropVal.pstr function_name),
   ("function_uuid", PropVal.pstr (env.uuid5 (env.func_module ++ "." ++ function_name))),
   ("timestamp_utc", PropVal.pstr env.now_iso),
   ("duration_ms", PropVal.pnum 0),
   ("status", PropVal.pstr "CACHE_HIT"),
   ("return_value", PropVal.pstr log.return_value)]

/-- The `hit_properties` dictionary handed to the batch logger: the base
fields, then `update` with the global tags, then the per-call tag loop. -/
def hitProperties (env : CacheEnv) (function_name : String) (log : CachedLog) :
    List (String × PropVal) :=
  injectCustomTags
    (pyUpdate (baseHitProperties env function_name log) env.global_custom_values)
    env.custom_properties env.kwargs

/-- Step (D) of `_check_and_return_cached_result`: the inner `try` block
logging the `CACHE_HIT` record.  Returns the block's outcome together
with the number of `add_object` invocations and the objects handed over
(the invocation happens even when `add_object` itself raises). -/
def logCacheHit (env : CacheEnv) (function_name : String) (log : CachedLog)
    (vec : List ℚ) : Except Unit Unit × Nat × List AddedObject :=
  match env.getBatchManager with
  | Except.error e => (Except.error e, 0, [])
  | Except.ok _ =>
      (env.addObject, 1,
       [⟨env.collection_name, hitProperties env function_name log, vec⟩])

/-- The outer `try` block of `_check_and_return_cached_result`: build the
canonical text, embed it, search the cache; on a hit, log the `CACHE_HIT`
record (its own failures swallowed) and deserialize the stored value. -/
def runCacheBody (env : CacheEnv) (function_name : String) :
    Except Unit (Option JValue) × CacheStats :=
  match env.buildText with
  | Except.error e => (Except.error e, ⟨0, 0, 0, []⟩)
  | Except.ok _ =>
    match env.embed with
    | Except.error e => (Except.error e, ⟨1, 0, 0, []⟩)
    | Except.ok vec =>
      match env.search with
      | Except.error e => (Except.error e, ⟨1, 1, 0, []⟩)
      | Except.ok none => (Except.ok none, ⟨1, 1, 0, []⟩)
      | Except.ok (some log) =>
        let lr := logCacheHit env function_name log vec
        match deserializeReturnValue log.return_value with
        | Except.error e => (Except.error e, ⟨1, 1, lr.2.1, lr.2.2⟩)
        | Except.ok v => (Except.ok (some v), ⟨1, 1, lr.2.1, lr.2.2⟩)

/-- Translation of `_check_and_return_cached_result`: the threshold
truthiness guard, the vectorizer presence guard, and the outer
`try ... except` that turns any failure of the body into a miss. -/
def checkAndReturnCachedResult (env : CacheEnv) (function_name : String)
    (_is_async : Bool) : Except Unit (Option JValue) × CacheStats :=
  if thresholdDisabled env.cache_threshold then (Except.ok none, ⟨0, 0, 0, []⟩)
  else if env.vectorizer_present = false then (Except.ok none, ⟨0, 0, 0, []⟩)
  else
    match runCacheBody env function_name with
    | (Except.ok r, s) => (Except.ok r, s)
    | (Except.error _, s) => (Except.ok none, s)

/-- A stored execution record as the replayer reads it: storage id, the
logged inputs (parameter name to value), and the stored `return_value`
text. -/
structure StoredRecord where
  id : String
  inputs : List (String × JValue)
  return_value : String
deriving DecidableEq

/-- The live target of a replay run: its currently declared parameter
names and the callable itself, which may raise (the error carries the
failure description). -/
structure ReplayTarget where
  params : List String
  call : List (String × JValue) → Except String JValue

/-- Filter the stored inputs down to the keys the target currently
declares. -/
def filterInputs (params : List String) (inputs : List (String × JValue)) :
    List (String × JValue) :=
  inputs.filter (fun p => params.contains p.1)

/-- Normalize a stored `return_value` string through the canonical
serialization: a decodable text decodes to its value, a bare string that
is not valid canonical text stands for itself. -/
def normalizeStored (s : String) : JValue := (decodeJson s).getD (JValue.jstr s)

/-- One mismatch descriptor of a replay outcome. -/
structure Mismatch where
  id : String
  inputs : List (String × JValue)
  expected : JValue
  actual : JValue
deriving DecidableEq

/-- Bucket a replayed record falls into. -/
inductive ReplayTally where
  | passed
  | failed
  | updated
deriving DecidableEq

/-- Result of replaying one record: the (possibly rewritten) record, the
bucket, the mismatch descriptor if any, and the argument list the target
was invoked with. -/
structure ReplayStep where
  record : StoredRecord
  tally : ReplayTally
  mismatch : Option Mismatch
  invocation : List (String × JValue)
deriving DecidableEq

/-- Modelled from the spec: record processing of `VectorWaveReplayer.replay`
(vectorwave/utils/replayer.py, not among the analysed sources; pinned by
src/tests/utils/test_replayer.py).  Filters the stored inputs to the
target's current parameters, invokes the target with them bound by name,
compares the fresh result with the normalized stored value; on a
mismatch, either rewrites the stored `return_value` to the re-serialized
fresh result (when `update_baseline` is set) or records a failure; a
raising target counts as failed with the failure description as the
actual value. -/
def replayOne (target : ReplayTarget) (update_baseline : Bool)
    (r : StoredRecord) : ReplayStep :=
  let filtered := filterInputs target.params r.inputs
  match target.call filtered with
  | Except.error msg =>
      ⟨r, ReplayTally.failed,
       some ⟨r.id, filtered, normalizeStored r.return_value, JValue.jstr msg⟩,
       filtered⟩
  | Except.ok fresh =>
      if normalizeStored r.return_value = fresh then
        ⟨r, ReplayTally.passed, none, filtered⟩
      else if update_baseline then
        ⟨{ r with return_value := serializeJ fresh }, ReplayTally.updated,
         none, filtered⟩
      else
        ⟨r, ReplayTally.failed,
         some ⟨r.id, filtered, normalizeStored r.return_value, fresh⟩,
         filtered⟩

/-- Aggregate counts and ordered mismatch list of a replay run. -/
structure ReplayOutcome where
  passed : Nat
  failed : Nat
  updated : Nat
  failures : List Mismatch
deriving DecidableEq

/-- Modelled from the spec: `VectorWaveReplayer.replay` over the fetched
records, in fetch order.  Returns the outcome, the store contents after
any baseline updates, and the argument lists the target was invoked
with. -/
def replay (target : ReplayTarget) (update_baseline : Bool) :
    List StoredRecord →
      ReplayOutcome × List StoredRecord × List (List (String × JValue))
  | [] => (⟨0, 0, 0, []⟩, [], [])
  | r :: rs =>
    let s := replayOne target update_baseline r
    let rest := replay target update_baseline rs
    (⟨(if s.tally = ReplayTally.passed then 1 else 0) + rest.1.passed,
      (if s.tally = ReplayTally.failed then 1 else 0) + rest.1.failed,
      (if s.tally = ReplayTally.updated then 1 else 0) + rest.1.updated,
      s.mismatch.toList ++ rest.1.failures⟩,
     s.record :: rest.2.1,
     s.invocation :: rest.2.2)

/-- Normalizing the re-serialized form of a value gives the value back. -/
theorem normalizeStored_serializeJ (v : JValue) :
    normalizeStored (serializeJ v) = v := by
  simp [normalizeStored, decodeJson_serializeJ]

/-- Replaying a record a second time with `update_baseline` set leaves the
record unchanged; an `updated` record passes, the other buckets repeat. -/
theorem replayOne_update_idem (target : ReplayTarget) (r : StoredRecord) :
    replayOne target true (replayOne target true r).record =
      ⟨(replayOne target true r).record,
       (if (replayOne target true r).tally = ReplayTally.updated then
          ReplayTally.passed
        else (replayOne target true r).tally),
       (replayOne target true r).mismatch,
       (replayOne target true r).invocation⟩ := by
  cases hc : target.call (filterInputs target.params r.inputs) with
  | error msg => simp [replayOne, hc]
  | ok fresh =>
    by_cases hm : normalizeStored r.return_value = fresh
    · simp [replayOne, hc, hm]
    · simp [replayOne, hc, hm, normalizeStored_serializeJ]

/-- A second `update_baseline` replay run over the store produced by a
first run leaves the store unchanged, performs no update, passes every
record the first run passed or updated, and fails the same records. -/
theorem replay_update_idem_list (target : ReplayTarget) (l : List StoredRecord) :
    replay target true (replay target true l).2.1 =
      (⟨(replay target true l).1.passed + (replay target true l).1.updated,
        (replay target true l).1.failed, 0, (replay target true l).1.failures⟩,
       (replay target true l).2.1, (replay target true l).2.2) := by
  induction l with
  | nil => rfl
  | cons r rs ih =>
    simp only [replay]
    rw [replayOne_update_idem target r]
    rcases htal : (replayOne target true r).tally <;>
      simp [replay, htal, ih] <;> omega

/-- Classification bucket of a recommendation candidate. -/
inductive RecClass where
  | STEADY
  | DISCOVERY
deriving DecidableEq

/-- A recommendation candidate as produced per classification run. -/
structure RecCandidate where
  id : String
  distance_to_center : ℚ
  rec_type : RecClass
  return_value : String
deriving DecidableEq

/-- Modelled from the spec: classification policy of the recommendation /
drift classifier (vectorwave/database/dataset.py, not among the analysed
sources; configured by RECOMMENDATION_STEADY_MARGIN and
RECOMMENDATION_DISCOVERY_MARGIN).  Distance at most the steady margin is
STEADY, distance at most the discovery margin is DISCOVERY, larger
distances are excluded from the output. -/
def classifyDistance (steady_margin discovery_margin d : ℚ) : Option RecClass :=
  if d ≤ steady_margin then some RecClass.STEADY
  else if d ≤ discovery_margin then some RecClass.DISCOVERY
  else none

/-- A stored execution log as the classifier reads it: id, embedding when
the record carries one, and the stored return value text. -/
structure ExecLog where
  id : String
  embedding : Option (List ℚ)
  return_value : String
deriving DecidableEq

/-- Stable insertion into a distance-ascending candidate list. -/
def insertByDistance (c : RecCandidate) : List RecCandidate → List RecCandidate
  | [] => [c]
  | d :: ds =>
    if c.distance_to_center ≤ d.distance_to_center then c :: d :: ds
    else d :: insertByDistance c ds

/-- Stable sort of candidates by ascending distance to the golden center
(ties keep fetch order, i.e. record recency). -/
def sortByDistance : List RecCandidate → List RecCandidate
  | [] => []
  | c :: cs => insertByDistance c (sortByDistance cs)

/-- Modelled from the spec: `recommend_candidates` of the dataset manager
(vectorwave/database/dataset.py, not among the analysed sources).  For
every fetched record carrying an embedding, computes its distance to the
golden center, classifies it by the margins, drops candidates beyond the
discovery margin, and returns the rest ordered by ascending distance.
`distToCenter` is the store's distance to the golden embedding. -/
def recommendCandidates (steady_margin discovery_margin : ℚ)
    (distToCenter : List ℚ → ℚ) (logs : List ExecLog) : List RecCandidate :=
  sortByDistance (logs.filterMap fun log =>
    log.embedding.bind fun e =>
      (classifyDistance steady_margin discovery_margin (distToCenter e)).map
        fun k => ⟨log.id, distToCenter e, k, log.return_value⟩)

theorem mem_insertByDistance {x c : RecCandidate} {l : List RecCandidate} :
    x ∈ insertByDistance c l ↔ x = c ∨ x ∈ l := by
  induction l with
  | nil => simp [insertByDistance]
  | cons d ds ih =>
    by_cases h : c.distance_to_center ≤ d.distance_to_center
    · simp [insertByDistance, h]
    · simp only [insertByDistance, if_neg h, List.mem_cons, ih]
      tauto

theorem mem_sortByDistance {x : RecCandidate} {l : List RecCandidate} :
    x ∈ sortByDistance l ↔ x ∈ l := by
  induction l with
  | nil => simp [sortByDistance]
  | cons c cs ih => simp [sortByDistance, mem_insertByDistance, ih]

/-- A record the similarity search can return, with a stored value in
canonical text form. -/
def sampleLog : CachedLog := ⟨"cached-log-uuid", 1, "\"ok\""⟩

/-- A fully healthy environment: caching enabled, all collaborators
succeed, the search finds `sampleLog`, an ambient trace context exists. -/
def baseEnv : CacheEnv where
  cache_threshold := some 1
  vectorizer_present := true
  buildText := Except.ok "dummy_func(10, b=20)"
  embed := Except.ok [1, 2, 3]
  search := Except.ok (some sampleLog)
  getBatchManager := Except.ok ()
  addObject := Except.ok ()
  tracer := some "existing-trace-id-abc"
  ambient_span := some "parent-span-123"
  fresh_trace_id := "fresh-trace-id"
  fresh_span_id := "fresh-span-id"
  now_iso := "2023-01-01T00:00:00Z"
  func_module := "tests"
  uuid5 := fun s => s
  global_custom_values := [("run_id", PropVal.pstr "test-run-123")]
  custom_properties := []
  kwargs := [("b", PropVal.pnum 20)]
  collection_name := "TestExecutions"

/-- `baseEnv` with caching disabled by an absent threshold. -/
def disabledEnv : CacheEnv := { baseEnv with cache_threshold := none }

/-- `baseEnv` with a strictly negative threshold. -/
def negThresholdEnv : CacheEnv :=
  { baseEnv with cache_threshold := some (-1), search := Except.ok none }

/-- `baseEnv` with an empty search result (cache miss). -/
def missEnv : CacheEnv := { baseEnv with search := Except.ok none }

/-- `baseEnv` whose batch logger raises on `add_object`. -/
def failingLogEnv : CacheEnv := { baseEnv with addObject := Except.error () }

/-- `baseEnv` whose matched record has a malformed stored payload. -/
def malformedEnv : CacheEnv :=
  { baseEnv with search := Except.ok (some ⟨"uuid-bad", 1, "oops"⟩) }

/-- `baseEnv` with a global tag colliding with the status field. -/
def statusCollisionEnv : CacheEnv :=
  { baseEnv with global_custom_values := [("status", PropVal.pstr "OVERRIDDEN")] }

/-- `baseEnv` with a key configured both as a global tag and as a
per-call tag that the call supplies. -/
def tagCollisionEnv : CacheEnv :=
  { baseEnv with
    global_custom_values := [("team", PropVal.pstr "global")],
    custom_properties := ["team"],
    kwargs := [("team", PropVal.pstr "billing")] }

/-- `baseEnv` with the keyword argument `b` allow-listed as a per-call
tag. -/
def tagEnv : CacheEnv := { baseEnv with custom_properties := ["b"] }

/-- Claim C1: every call to the cache decision function returns normally.
Any failure raised inside the cache check -- building the canonical input
text, embedding, searching, logging the hit, or deserializing the stored
payload -- is caught inside `_check_and_return_cached_result`, which then
produces a miss; no exception from the caching path propagates to the
caller of the instrumented function. -/
theorem cache_check_never_raises (env : CacheEnv) (fname : String) (b : Bool) :
    (checkAndReturnCachedResult env fname b).1.isOk = true := by
  unfold checkAndReturnCachedResult
  split
  · rfl
  split
  · rfl
  split
  · rfl
  · rfl

/-- Claim C2 is refuted as stated: a strictly negative threshold is truthy
in Python (`not cache_threshold` holds only for `None` and zero), so with
`cache_threshold = -1` (which satisfies t ≤ 0) the function does not take
the disabled fast path: the embedding collaborator is invoked and the
store is queried. -/
theorem cache_negative_threshold_invokes_embed :
    ¬ (∀ (env : CacheEnv) (fname : String) (b : Bool),
        (env.cache_threshold = none ∨
          ∃ t, env.cache_threshold = some t ∧ t ≤ 0) →
        (checkAndReturnCachedResult env fname b).2.embedCalls = 0 ∧
        (checkAndReturnCachedResult env fname b).2.searchCalls = 0) := by
  intro h
  have hle : negThresholdEnv.cache_threshold = none ∨
      ∃ t, negThresholdEnv.cache_threshold = some t ∧ t ≤ 0 :=
    Or.inr ⟨-1, rfl, by norm_num⟩
  have h1 := (h negThresholdEnv "dummy_func" false hle).1
  have hev : (checkAndReturnCachedResult negThresholdEnv "dummy_func" false).2.embedCalls
      = 1 := by decide
  rw [hev] at h1
  exact one_ne_zero h1

/-- Claim C2 amended: when `cache_threshold` is absent (`None`) or zero --
the values Python treats as falsy -- the function returns a miss
immediately, performing no embedding work, no search and no logging. -/
theorem cache_disabled_threshold_fast_path (env : CacheEnv) (fname : String)
    (b : Bool) (h : env.cache_threshold = none ∨ env.cache_threshold = some 0) :
    checkAndReturnCachedResult env fname b = (Except.ok none, ⟨0, 0, 0, []⟩) := by
  have hd : thresholdDisabled env.cache_threshold = true := by
    rcases h with h | h <;> simp [h, thresholdDisabled]
  simp [checkAndReturnCachedResult, hd]

/-- Witness for the amended claim C2 at a concrete environment. -/
theorem cache_disabled_threshold_fast_path_w :
    checkAndReturnCachedResult disabledEnv "dummy_func" false
      = (Except.ok none, ⟨0, 0, 0, []⟩) :=
  cache_disabled_threshold_fast_path disabledEnv "dummy_func" false (Or.inl rfl)

/-- Claim C3: with caching enabled and a vectorizer present, healthy text
building and embedding, a qualifying search match makes the function
return the deserialization of the matched record's stored return_value,
and an empty search result makes it return a miss. -/
theorem cache_hit_returns_deserialized (env : CacheEnv) (fname : String)
    (b : Bool) (t : String) (vec : List ℚ)
    (h1 : thresholdDisabled env.cache_threshold = false)
    (h2 : env.vectorizer_present = true)
    (ht : env.buildText = Except.ok t)
    (hv : env.embed = Except.ok vec) :
    (∀ log v, env.search = Except.ok (some log) →
        deserializeReturnValue log.return_value = Except.ok v →
        (checkAndReturnCachedResult env fname b).1 = Except.ok (some v)) ∧
    (env.search = Except.ok none →
        (checkAndReturnCachedResult env fname b).1 = Except.ok none) := by
  constructor
  · intro log v hs hd
    simp [checkAndReturnCachedResult, runCacheBody, h1, h2, ht, hv, hs, hd]
  · intro hs
    simp [checkAndReturnCachedResult, runCacheBody, h1, h2, ht, hv, hs]

/-- Witness for claim C3 at a concrete environment: the stored text form
of the string "ok" is returned deserialized. -/
theorem cache_hit_returns_deserialized_w :
    (checkAndReturnCachedResult baseEnv "dummy_func" false).1
      = Except.ok (some (JValue.jstr "ok")) :=
  (cache_hit_returns_deserialized baseEnv "dummy_func" false
      "dummy_func(10, b=20)" [1, 2, 3] (by decide) rfl rfl rfl).1
    sampleLog (JValue.jstr "ok") rfl rfl

/-- Helper: the `status` entries of the records an environment hands to
the batch logger. -/
def addedStatusValues (env : CacheEnv) (fname : String) : List (Option PropVal) :=
  ((checkAndReturnCachedResult env fname false).2.added).map
    (fun a => pyDictGet a.properties "status")

/-- Claim C4 is refuted as stated: the global tags are merged into the
hit record with Python dict-update semantics, so a configured global tag
whose key collides with a reserved record field overwrites it; with
`global_custom_values` containing the key "status", the single record
handed to the batch logger on a qualifying hit carries status
"OVERRIDDEN", not "CACHE_HIT". -/
theorem cache_hit_status_overridden :
    addedStatusValues statusCollisionEnv "dummy_func"
        = [some (PropVal.pstr "OVERRIDDEN")] ∧
    some (PropVal.pstr "OVERRIDDEN") ≠ some (PropVal.pstr "CACHE_HIT") := by
  constructor
  · rfl
  · decide

/-- The reserved field names of a CACHE_HIT record. -/
def reservedHitKeys : List String :=
  ["trace_id", "span_id", "parent_span_id", "function_name", "function_uuid",
   "timestamp_utc", "duration_ms", "status", "return_value"]

/-- Claim C4 amended: provided the configured global tag keys and
per-call tag keys avoid the reserved record field names, every qualifying
cache hit hands the batch logger exactly one record whose status is
CACHE_HIT, whose duration_ms is 0.0, whose return_value is the verbatim
stored return_value of the matched record, whose trace_id comes from the
ambient tracer when one exists and is the freshly generated id otherwise,
whose parent_span_id is the ambient span id, and whose vector is the
input vector already computed for this decision; the embedding
collaborator is invoked exactly once. -/
theorem cache_hit_record_fields (env : CacheEnv) (fname : String) (b : Bool)
    (log : CachedLog) (vec : List ℚ) (t : String)
    (h1 : thresholdDisabled env.cache_threshold = false)
    (h2 : env.vectorizer_present = true)
    (ht : env.buildText = Except.ok t)
    (hv : env.embed = Except.ok vec)
    (hs : env.search = Except.ok (some log))
    (hb : env.getBatchManager = Except.ok ())
    (hres : ∀ k ∈ reservedHitKeys,
        (∀ p ∈ env.global_custom_values, p.1 ≠ k) ∧
          k ∉ env.custom_properties) :
    (checkAndReturnCachedResult env fname b).2.added =
        [⟨env.collection_name, hitProperties env fname log, vec⟩] ∧
    (checkAndReturnCachedResult env fname b).2.embedCalls = 1 ∧
    pyDictGet (hitProperties env fname log) "status"
        = some (PropVal.pstr "CACHE_HIT") ∧
    pyDictGet (hitProperties env fname log) "duration_ms"
        = some (PropVal.pnum 0) ∧
    pyDictGet (hitProperties env fname log) "return_value"
        = some (PropVal.pstr log.return_value) ∧
    (∀ tid, env.tracer = some tid →
        pyDictGet (hitProperties env fname log) "trace_id"
          = some (PropVal.pstr tid)) ∧
    (env.tracer = none →
        pyDictGet (hitProperties env fname log) "trace_id"
          = some (PropVal.pstr env.fresh_trace_id)) ∧
    (∀ sp, env.ambient_span = some sp →
        pyDictGet (hitProperties env fname log) "parent_span_id"
          = some (PropVal.pstr sp)) := by
  have hpres : ∀ k ∈ reservedHitKeys,
      pyDictGet (hitProperties env fname log) k
        = pyDictGet (baseHitProperties env fname log) k := by
    intro k hk
    unfold hitProperties
    rw [injectCustomTags_get_not_mem _ _ _ (hres k hk).2,
        pyUpdate_get_not_mem _ _ (hres k hk).1]
  refine ⟨?_, ?_, ?_, ?_, ?_, ?_, ?_, ?_⟩
  · cases hd : deserializeReturnValue log.return_value <;>
      simp [checkAndReturnCachedResult, runCacheBody, logCacheHit,
        h1, h2, ht, hv, hs, hb, hd]
  · cases hd : deserializeReturnValue log.return_value <;>
      simp [checkAndReturnCachedResult, runCacheBody, logCacheHit,
        h1, h2, ht, hv, hs, hb, hd]
  · rw [hpres "status" (by decide)]; rfl
  · rw [hpres "duration_ms" (by decide)]; rfl
  · rw [hpres "return_value" (by decide)]; rfl
  · intro tid htid
    rw [hpres "trace_id" (by decide)]
    simp [baseHitProperties, pyDictGet, htid]
  · intro htid
    rw [hpres "trace_id" (by decide)]
    simp [baseHitProperties, pyDictGet, htid]
  · intro sp hsp
    rw [hpres "parent_span_id" (by decide)]
    simp [baseHitProperties, pyDictGet, hsp]

/-- Witness for the amended claim C4 at a concrete environment. -/
theorem cache_hit_record_fields_w :
    (checkAndReturnCachedResult baseEnv "dummy_func" false).2.added =
        [⟨baseEnv.collection_name, hitProperties baseEnv "dummy_func" sampleLog,
          [1, 2, 3]⟩] ∧
    (checkAndReturnCachedResult baseEnv "dummy_func" false).2.embedCalls = 1 ∧
    pyDictGet (hitProperties baseEnv "dummy_func" sampleLog) "status"
        = some (PropVal.pstr "CACHE_HIT") ∧
    pyDictGet (hitProperties baseEnv "dummy_func" sampleLog) "duration_ms"
        = some (PropVal.pnum 0) ∧
    pyDictGet (hitProperties baseEnv "dummy_func" sampleLog) "return_value"
        = some (PropVal.pstr sampleLog.return_value) ∧
    (∀ tid, baseEnv.tracer = some tid →
        pyDictGet (hitProperties baseEnv "dummy_func" sampleLog) "trace_id"
          = some (PropVal.pstr tid)) ∧
    (baseEnv.tracer = none →
        pyDictGet (hitProperties baseEnv "dummy_func" sampleLog) "trace_id"
          = some (PropVal.pstr baseEnv.fresh_trace_id)) ∧
    (∀ sp, baseEnv.ambient_span = some sp →
        pyDictGet (hitProperties baseEnv "dummy_func" sampleLog) "parent_span_id"
          = some (PropVal.pstr sp)) :=
  cache_hit_record_fields baseEnv "dummy_func" false sampleLog
    [1, 2, 3] "dummy_func(10, b=20)"
    (by decide) rfl rfl rfl rfl rfl (by decide)

/-- Claim C5: when `add_object` raises while logging the CACHE_HIT
record, the failure is swallowed and the function still returns the
deserialized cached value, identical to what it returns with a healthy
logger. -/
theorem cache_logging_failure_isolated (env : CacheEnv) (fname : String)
    (b : Bool) (log : CachedLog) (vec : List ℚ) (t : String) (v : JValue)
    (h1 : thresholdDisabled env.cache_threshold = false)
    (h2 : env.vectorizer_present = true)
    (ht : env.buildText = Except.ok t)
    (hv : env.embed = Except.ok vec)
    (hs : env.search = Except.ok (some log))
    (_hfail : env.addObject = Except.error ())
    (hd : deserializeReturnValue log.return_value = Except.ok v) :
    (checkAndReturnCachedResult env fname b).1 = Except.ok (some v) ∧
    (checkAndReturnCachedResult env fname b).1 =
      (checkAndReturnCachedResult { env with addObject := Except.ok () }
        fname b).1 := by
  constructor
  · simp [checkAndReturnCachedResult, runCacheBody, h1, h2, ht, hv, hs, hd]
  · simp [checkAndReturnCachedResult, runCacheBody, h1, h2, ht, hv, hs, hd]

/-- Witness for claim C5 at a concrete environment whose logger raises. -/
theorem cache_logging_failure_isolated_w :
    (checkAndReturnCachedResult failingLogEnv "dummy_func" false).1
        = Except.ok (some (JValue.jstr "ok")) ∧
    (checkAndReturnCachedResult failingLogEnv "dummy_func" false).1 =
      (checkAndReturnCachedResult
        { failingLogEnv with addObject := Except.ok () } "dummy_func" false).1 :=
  cache_logging_failure_isolated failingLogEnv "dummy_func" false sampleLog
    [1, 2, 3] "dummy_func(10, b=20)" (JValue.jstr "ok")
    (by decide) rfl rfl rfl rfl rfl rfl

/-- Claim C6 is refuted as stated: the per-call tag loop runs after the
global-tag `update`, so a key configured both as a global tag and as a
per-call tag carried by the call ends up with the call argument's value;
the logged record then does not contain the configured global key/value
pair.  With global tag team="global", allow-listed key "team" and keyword
argument team="billing", the record handed to the batch logger maps
"team" to "billing". -/
theorem cache_hit_global_tag_overridden :
    pyDictGet (hitProperties tagCollisionEnv "dummy_func" sampleLog) "team"
        = some (PropVal.pstr "billing") ∧
    some (PropVal.pstr "billing") ≠ some (PropVal.pstr "global") ∧
    (checkAndReturnCachedResult tagCollisionEnv "dummy_func" false).2.added =
      [⟨"TestExecutions", hitProperties tagCollisionEnv "dummy_func" sampleLog,
        [1, 2, 3]⟩] := by
  refine ⟨rfl, by decide, rfl⟩

/-- Claim C6 amended: on every qualifying cache hit the logged record
contains every configured global tag pair whose key is not also an
applicable per-call tag key, and, for every configured per-call tag key
present among the call's keyword arguments, that key mapped to the
argument's value (per-call tags take precedence over global tags on
collision). -/
theorem cache_hit_tags (env : CacheEnv) (fname : String) (b : Bool)
    (log : CachedLog) (vec : List ℚ) (t : String)
    (h1 : thresholdDisabled env.cache_threshold = false)
    (h2 : env.vectorizer_present = true)
    (ht : env.buildText = Except.ok t)
    (hv : env.embed = Except.ok vec)
    (hs : env.search = Except.ok (some log))
    (hb : env.getBatchManager = Except.ok ())
    (hnd : (env.global_custom_values.map Prod.fst).Nodup) :
    (checkAndReturnCachedResult env fname b).2.added =
        [⟨env.collection_name, hitProperties env fname log, vec⟩] ∧
    (∀ k v, (k, v) ∈ env.global_custom_values → k ∉ env.custom_properties →
        pyDictGet (hitProperties env fname log) k = some v) ∧
    (∀ k v, k ∈ env.custom_properties → pyDictGet env.kwargs k = some v →
        pyDictGet (hitProperties env fname log) k = some v) := by
  refine ⟨?_, ?_, ?_⟩
  · cases hd : deserializeReturnValue log.return_value <;>
      simp [checkAndReturnCachedResult, runCacheBody, logCacheHit,
        h1, h2, ht, hv, hs, hb, hd]
  · intro k v hg hnc
    unfold hitProperties
    rw [injectCustomTags_get_not_mem _ _ _ hnc]
    exact pyUpdate_get_mem _ _ hnd hg
  · intro k v hc hkw
    unfold hitProperties
    exact injectCustomTags_get_mem _ _ _ hc hkw

/-- Witness for the amended claim C6: the global tag run_id survives and
the allow-listed keyword argument b becomes a tag. -/
theorem cache_hit_tags_w :
    pyDictGet (hitProperties tagEnv "dummy_func" sampleLog) "run_id"
        = some (PropVal.pstr "test-run-123") ∧
    pyDictGet (hitProperties tagEnv "dummy_func" sampleLog) "b"
        = some (PropVal.pnum 20) :=
  ⟨(cache_hit_tags tagEnv "dummy_func" false sampleLog [1, 2, 3]
      "dummy_func(10, b=20)" (by decide) rfl rfl rfl rfl rfl (by decide)).2.1
      "run_id" (PropVal.pstr "test-run-123") (by decide) (by decide),
   (cache_hit_tags tagEnv "dummy_func" false sampleLog [1, 2, 3]
      "dummy_func(10, b=20)" (by decide) rfl rfl rfl rfl rfl (by decide)).2.2
      "b" (PropVal.pnum 20) (by decide) rfl⟩

/-- Helper for claim C10: whenever caching is disabled, the vectorizer is
absent, or the check fails or misses before a qualifying match is found,
the function returns a miss and the batch logger is never invoked. -/
theorem addObject_zero_of_no_hit (env : CacheEnv) (fname : String) (b : Bool)
    (h : thresholdDisabled env.cache_threshold = true ∨
      env.vectorizer_present = false ∨
      env.buildText = Except.error () ∨
      env.embed = Except.error () ∨
      env.search = Except.error () ∨
      env.search = Except.ok none) :
    (checkAndReturnCachedResult env fname b).1 = Except.ok none ∧
    (checkAndReturnCachedResult env fname b).2.addObjectCalls = 0 ∧
    (checkAndReturnCachedResult env fname b).2.added = [] := by
  by_cases h1 : thresholdDisabled env.cache_threshold = true
  · simp [checkAndReturnCachedResult, h1]
  · have h1f : thresholdDisabled env.cache_threshold = false := by
      simpa using h1
    by_cases h2 : env.vectorizer_present = false
    · simp [checkAndReturnCachedResult, h1f, h2]
    · have h2t : env.vectorizer_present = true := by
        cases hvp : env.vectorizer_present
        · exact absurd hvp h2
        · rfl
      rcases h with h | h | h | h | h | h
      · exact absurd h h1
      · exact absurd h h2
      · simp [checkAndReturnCachedResult, runCacheBody, h1f, h2t, h]
      · cases ht : env.buildText with
        | error e =>
          simp [checkAndReturnCachedResult, runCacheBody, h1f, h2t, ht]
        | ok t =>
          simp [checkAndReturnCachedResult, runCacheBody, h1f, h2t, ht, h]
      · cases ht : env.buildText with
        | error e =>
          simp [checkAndReturnCachedResult, runCacheBody, h1f, h2t, ht]
        | ok t =>
          cases hv : env.embed with
          | error e =>
            simp [checkAndReturnCachedResult, runCacheBody, h1f, h2t, ht, hv]
          | ok vec =>
            simp [checkAndReturnCachedResult, runCacheBody, h1f, h2t, ht, hv, h]
      · cases ht : env.buildText with
        | error e =>
          simp [checkAndReturnCachedResult, runCacheBody, h1f, h2t, ht]
        | ok t =>
          cases hv : env.embed with
          | error e =>
            simp [checkAndReturnCachedResult, runCacheBody, h1f, h2t, ht, hv]
          | ok vec =>
            simp [checkAndReturnCachedResult, runCacheBody, h1f, h2t, ht, hv, h]

/-- Claim C10 is refuted as stated: a record can be handed to the batch
logger even though an exception then occurs during the check.  With a
matched record whose stored payload is malformed, the hit is logged
first, the deserialization then raises, the outer handler turns the call
into a miss -- yet `add_object` was invoked once. -/
theorem cache_enqueue_despite_failure :
    (checkAndReturnCachedResult malformedEnv "dummy_func" false).1
        = Except.ok none ∧
    (checkAndReturnCachedResult malformedEnv "dummy_func" false).2.addObjectCalls
        = 1 := by
  exact ⟨rfl, rfl⟩

/-- Claim C10 amended: the batch logger is invoked only once a qualifying
match has been found.  When caching is disabled by the threshold, the
vectorizer is absent, the search misses, or any exception occurs before a
match is found, the function returns a miss without enqueuing any record;
conversely, any `add_object` invocation implies the search returned a
match. -/
theorem batch_logger_only_on_qualifying_hit (env : CacheEnv) (fname : String)
    (b : Bool) :
    ((thresholdDisabled env.cache_threshold = true ∨
      env.vectorizer_present = false ∨
      env.buildText = Except.error () ∨
      env.embed = Except.error () ∨
      env.search = Except.error () ∨
      env.search = Except.ok none) →
      (checkAndReturnCachedResult env fname b).1 = Except.ok none ∧
      (checkAndReturnCachedResult env fname b).2.addObjectCalls = 0 ∧
      (checkAndReturnCachedResult env fname b).2.added = []) ∧
    ((checkAndReturnCachedResult env fname b).2.addObjectCalls ≠ 0 →
      ∃ log, env.search = Except.ok (some log)) := by
  constructor
  · exact addObject_zero_of_no_hit env fname b
  · intro hne
    cases hs : env.search with
    | error e =>
      exact absurd (addObject_zero_of_no_hit env fname b
        (Or.inr (Or.inr (Or.inr (Or.inr (Or.inl hs)))))).2.1 hne
    | ok o =>
      cases o with
      | none =>
        exact absurd (addObject_zero_of_no_hit env fname b
          (Or.inr (Or.inr (Or.inr (Or.inr (Or.inr hs)))))).2.1 hne
      | some log => exact ⟨log, rfl⟩

/-- Witness for the amended claim C10 at a concrete miss environment. -/
theorem batch_logger_only_on_qualifying_hit_w :
    (checkAndReturnCachedResult missEnv "dummy_func" false).1 = Except.ok none ∧
    (checkAndReturnCachedResult missEnv "dummy_func" false).2.addObjectCalls = 0 ∧
    (checkAndReturnCachedResult missEnv "dummy_func" false).2.added = [] :=
  (batch_logger_only_on_qualifying_hit missEnv "dummy_func" false).1
    (Or.inr (Or.inr (Or.inr (Or.inr (Or.inr rfl)))))

/-- The argument list handed to the target is always the filtered stored
inputs, whatever the comparison outcome. -/
theorem replayOne_invocation (target : ReplayTarget) (ub : Bool)
    (r : StoredRecord) :
    (replayOne target ub r).invocation = filterInputs target.params r.inputs := by
  cases hc : target.call (filterInputs target.params r.inputs) with
  | error msg => simp [replayOne, hc]
  | ok fresh =>
    by_cases hm : normalizeStored r.return_value = fresh
    · simp [replayOne, hc, hm]
    · by_cases hub : ub
      · simp [replayOne, hc, hm, hub]
      · simp [replayOne, hc, hm, hub]

/-- Claim C7: replay invokes the target with exactly those stored input
keys that occur in the target's currently declared parameter set, bound
by name; stored keys not in the current signature are silently dropped.
An argument pair is passed iff it is stored and its key is declared; in
particular, stored inputs a=10, team="billing", priority=1 against a
target declaring only parameter a produce exactly the call with a=10. -/
theorem replay_filters_inputs (target : ReplayTarget) (ub : Bool)
    (records : List StoredRecord) :
    (replay target ub records).2.2 =
      records.map (fun r => filterInputs target.params r.inputs) ∧
    (∀ (params : List String) (inputs : List (String × JValue))
        (kv : String × JValue),
        kv ∈ filterInputs params inputs ↔ kv ∈ inputs ∧ kv.1 ∈ params) ∧
    filterInputs ["a"]
        [("a", JValue.jnum 10), ("team", JValue.jstr "billing"),
         ("priority", JValue.jnum 1)]
      = [("a", JValue.jnum 10)] := by
  refine ⟨?_, ?_, ?_⟩
  · induction records with
    | nil => rfl
    | cons r rs ih => simp [replay, replayOne_invocation, ih]
  · intro params inputs kv
    simp [filterInputs, List.mem_filter]
  · rfl

/-- Claim C8: with update_baseline set, a record whose fresh replay
result differs from the stored value is rewritten to the re-serialized
fresh result and counted as updated, not passed or failed; replaying the
rewritten record again performs no further update and counts it as
passed; a second full run over any store leaves the store unchanged,
counts no update, passes what the first run passed or updated and fails
what it failed. -/
theorem replay_update_baseline_idempotent (target : ReplayTarget)
    (r : StoredRecord) (fresh : JValue)
    (hcall : target.call (filterInputs target.params r.inputs)
      = Except.ok fresh)
    (hdiff : normalizeStored r.return_value ≠ fresh) :
    replayOne target true r =
      ⟨{ r with return_value := serializeJ fresh }, ReplayTally.updated, none,
       filterInputs target.params r.inputs⟩ ∧
    replayOne target true { r with return_value := serializeJ fresh } =
      ⟨{ r with return_value := serializeJ fresh }, ReplayTally.passed, none,
       filterInputs target.params r.inputs⟩ ∧
    (∀ l, replay target true (replay target true l).2.1 =
        (⟨(replay target true l).1.passed + (replay target true l).1.updated,
          (replay target true l).1.failed, 0, (replay target true l).1.failures⟩,
         (replay target true l).2.1, (replay target true l).2.2)) := by
  refine ⟨?_, ?_, fun l => replay_update_idem_list target l⟩
  · simp [replayOne, hcall, hdiff]
  · simp [replayOne, hcall, normalizeStored_serializeJ, hdiff]

/-- The replay target of the baseline-update scenario: declares one
parameter msg and now returns the string New. -/
def greetTarget : ReplayTarget :=
  ⟨["msg"], fun _ => Except.ok (JValue.jstr "New")⟩

/-- A stored record whose baseline still holds the string Old. -/
def greetRecord : StoredRecord := ⟨"uuid-3", [("msg", JValue.jstr "Hi")], "Old"⟩

/-- Witness for claim C8 at the concrete baseline-update scenario of the
replayer tests. -/
theorem replay_update_baseline_idempotent_w :
    replayOne greetTarget true greetRecord =
      ⟨{ greetRecord with return_value := serializeJ (JValue.jstr "New") },
       ReplayTally.updated, none,
       filterInputs greetTarget.params greetRecord.inputs⟩ ∧
    replayOne greetTarget true
        { greetRecord with return_value := serializeJ (JValue.jstr "New") } =
      ⟨{ greetRecord with return_value := serializeJ (JValue.jstr "New") },
       ReplayTally.passed, none,
       filterInputs greetTarget.params greetRecord.inputs⟩ ∧
    (∀ l, replay greetTarget true (replay greetTarget true l).2.1 =
        (⟨(replay greetTarget true l).1.passed
            + (replay greetTarget true l).1.updated,
          (replay greetTarget true l).1.failed, 0,
          (replay greetTarget true l).1.failures⟩,
         (replay greetTarget true l).2.1, (replay greetTarget true l).2.2)) :=
  replay_update_baseline_idempotent greetTarget greetRecord (JValue.jstr "New")
    rfl (by decide)

/-- Any classified candidate sits within the discovery margin. -/
theorem classifyDistance_le_discovery {steady discovery d : ℚ} {k : RecClass}
    (hm : steady ≤ discovery)
    (h : classifyDistance steady discovery d = some k) : d ≤ discovery := by
  unfold classifyDistance at h
  split at h
  next hds => exact le_trans hds hm
  next =>
    split at h
    next hdd => exact hdd
    next => cases h

/-- Claim C9: given steady_margin ≤ discovery_margin, every fetched
record carrying an embedding whose distance to the golden center is at
most the steady margin appears in the classifier output as STEADY, one
whose distance lies strictly between the steady margin and at most the
discovery margin appears as DISCOVERY, and at a distance beyond the
discovery margin nothing at that distance appears in the output at all. -/
theorem classifier_margin_policy (steady discovery : ℚ)
    (dist : List ℚ → ℚ) (logs : List ExecLog) (log : ExecLog) (e : List ℚ)
    (hm : steady ≤ discovery) (hlog : log ∈ logs)
    (he : log.embedding = some e) :
    (dist e ≤ steady →
      (⟨log.id, dist e, RecClass.STEADY, log.return_value⟩ : RecCandidate) ∈
        recommendCandidates steady discovery dist logs) ∧
    (steady < dist e → dist e ≤ discovery →
      (⟨log.id, dist e, RecClass.DISCOVERY, log.return_value⟩ : RecCandidate) ∈
        recommendCandidates steady discovery dist logs) ∧
    (discovery < dist e →
      ∀ c ∈ recommendCandidates steady discovery dist logs,
        c.distance_to_center ≠ dist e) := by
  refine ⟨?_, ?_, ?_⟩
  · intro hd
    unfold recommendCandidates
    rw [mem_sortByDistance]
    refine List.mem_filterMap.mpr ⟨log, hlog, ?_⟩
    simp [he, classifyDistance, hd]
  · intro hd1 hd2
    unfold recommendCandidates
    rw [mem_sortByDistance]
    refine List.mem_filterMap.mpr ⟨log, hlog, ?_⟩
    simp [he, classifyDistance, hd2, not_le.mpr hd1]
  · intro hgt c hc heq
    unfold recommendCandidates at hc
    rw [mem_sortByDistance] at hc
    obtain ⟨lg, hlg, hf⟩ := List.mem_filterMap.mp hc
    cases hemb : lg.embedding with
    | none => rw [hemb] at hf; cases hf
    | some ev =>
      rw [hemb] at hf
      cases hcl : classifyDistance steady discovery (dist ev) with
      | none => simp [hcl] at hf
      | some k =>
        simp only [Option.some_bind, hcl, Option.map_some'] at hf
        have hfc := Option.some.inj hf
        have hdc : c.distance_to_center = dist ev := by
          rw [← hfc]
        have hle : dist ev ≤ discovery := classifyDistance_le_discovery hm hcl
        rw [heq] at hdc
        rw [hdc] at hgt
        exact absurd hle (not_le.mpr hgt)

/-- Distance of a candidate embedding to the golden center in the witness
scenario: its first coordinate. -/
def wDist : List ℚ → ℚ
  | [] => 0
  | d :: _ => d

/-- Candidate logs for the classifier witness, at distances 25, 26 and 41
(the claim's boundary distances scaled by one hundred). -/
def wLogs : List ExecLog :=
  [⟨"r1", some [25], "v1"⟩, ⟨"r2", some [26], "v2"⟩, ⟨"r3", some [41], "v3"⟩]

/-- Witness for claim C9 at the claim's boundary: with margins 25 and 40,
distance 25 classifies STEADY, 26 classifies DISCOVERY, and 41 is absent
from the output. -/
theorem classifier_margin_policy_w :
    (⟨"r1", wDist [25], RecClass.STEADY, "v1"⟩ : RecCandidate) ∈
        recommendCandidates 25 40 wDist wLogs ∧
    (⟨"r2", wDist [26], RecClass.DISCOVERY, "v2"⟩ : RecCandidate) ∈
        recommendCandidates 25 40 wDist wLogs ∧
    (∀ c ∈ recommendCandidates 25 40 wDist wLogs,
        c.distance_to_center ≠ wDist [41]) :=
  ⟨(classifier_margin_policy 25 40 wDist wLogs ⟨"r1", some [25], "v1"⟩ [25]
      (by decide) (List.mem_cons_self _ _) rfl).1 (by decide),
   (classifier_margin_policy 25 40 wDist wLogs ⟨"r2", some [26], "v2"⟩ [26]
      (by decide) (List.mem_cons_of_mem _ (List.mem_cons_self _ _)) rfl).2.1
      (by decide) (by decide),
   (classifier_margin_policy 25 40 wDist wLogs ⟨"r3", some [41], "v3"⟩ [41]
      (by decide)
      (List.mem_cons_of_mem _ (List.mem_cons_of_mem _ (List.mem_cons_self _ _)))
      rfl).2.2 (by decide)⟩

end VectorWave
